import Mathlib

/-!
# Verification of the OnRamp PCE batch-scheduler driver

Shallow embedding of `src/pce/src/PCE/tools/schedulers.py` (Python 2).

The driver shells out to external SLURM commands (`sbatch`, `scontrol`,
`scancel`).  Each external call is modelled by a `CmdResult` input value:
`CmdResult.ok output` stands for a zero exit with the captured text, and
`CmdResult.err returncode output` stands for a `CalledProcessError`.
A Python function that can terminate with an uncaught exception is embedded
as an `Option`-returning function, `none` marking the uncaught exception.

No `logger` attribute is ever assigned in the module:
`_BatchScheduler.__init__` is `pass`, `SLURMScheduler` defines no
initializer, and the `Scheduler` factory returns the bare `cls(type)`
instance.  Hence every `self.logger.error`/`self.logger.debug` call
(lines 103, 134, 144, 168, 180, 184) raises an uncaught
`AttributeError`; each such call site is embedded as the
uncaught-exception result `none`, and any `return` after it is
unreachable.

Python string primitives used by the source (`str.strip()`, `str.split()`
with and without a separator, `str.join`, `int()`) are modelled from
scratch on `List Char` so that every definition is executable and
kernel-reducible.
-/

namespace Onramp

/-- Python `str.isspace` characters relevant to `strip`/`split`:
space, tab, newline, carriage return, vertical tab, form feed. -/
def pyIsSpace (c : Char) : Bool :=
  c = ' ' || c = '\t' || c = '\n' || c = '\r' || c = '\x0b' || c = '\x0c'

/-- Accumulator worker for Python's separator-less `str.split()`:
`cur` holds the (reversed) word being scanned. -/
def wsSplitAux : List Char → List Char → List (List Char)
  | cur, [] => if cur = [] then [] else [cur.reverse]
  | cur, c :: cs =>
    if pyIsSpace c then
      if cur = [] then wsSplitAux [] cs else cur.reverse :: wsSplitAux [] cs
    else wsSplitAux (c :: cur) cs

/-- Python `str.split()` (no separator): split on runs of whitespace,
discarding empty fields. -/
def wsSplit (l : List Char) : List (List Char) :=
  wsSplitAux [] l

/-- Python `str.split()` on a `String`. -/
def pySplitWS (s : String) : List String :=
  (wsSplit s.data).map (fun w => (⟨w⟩ : String))

/-- Python `str.strip()` on a char list: drop leading and trailing
whitespace. -/
def trimWS (l : List Char) : List Char :=
  ((l.dropWhile pyIsSpace).reverse.dropWhile pyIsSpace).reverse

/-- Python `str.strip()`. -/
def pyStrip (s : String) : String :=
  ⟨trimWS s.data⟩

/-- Python `sep.join(xs)`. -/
def pyJoin (sep : String) : List String → String
  | [] => ""
  | [x] => x
  | x :: xs => x ++ sep ++ pyJoin sep xs

/-- The separator `'JobState='` used by `check_status`. -/
def jsSep : List Char := "JobState=".data

/-- Fuel-indexed worker for Python `str.split('JobState=')`; the fuel is
an upper bound on the list length, so the `0`-fuel fallback is never hit
when called through `splitJS`. -/
def splitJSAux : Nat → List Char → List (List Char)
  | _, [] => [[]]
  | 0, l => [l]
  | fuel + 1, c :: cs =>
    if jsSep.isPrefixOf (c :: cs) then
      [] :: splitJSAux fuel ((c :: cs).drop jsSep.length)
    else
      match splitJSAux fuel cs with
      | p :: ps => (c :: p) :: ps
      | [] => [[c]]

/-- Python `job_info.split('JobState=')`. -/
def splitJS (l : List Char) : List (List Char) :=
  splitJSAux l.length l

/-- Models `job_info.split('JobState=')[1].split()[0]` from
`check_status` (line 171).  `none` marks the `IndexError` that Python
raises when the `[1]` or `[0]` index does not exist. -/
def extractJobState (job_info : String) : Option String :=
  match splitJS job_info.data with
  | _ :: seg :: _ =>
    match wsSplit seg with
    | w :: _ => some (⟨w⟩ : String)
    | [] => none
  | _ => none

/-- Value of a decimal digit string, most significant digit first. -/
def digitsToNat (l : List Char) : Nat :=
  l.foldl (fun a c => a * 10 + (c.toNat - 48)) 0

/-- Python 2 `int(s)` on a `str`: surrounding whitespace is ignored, then
an optional sign followed by one or more decimal digits is accepted;
`none` marks the `ValueError` raised otherwise. -/
def pyInt? (s : String) : Option Int :=
  match (pyStrip s).data with
  | [] => none
  | c :: cs =>
    if c = '+' then
      if cs = [] ∨ ¬ cs.all Char.isDigit then none
      else some (digitsToNat cs : Nat)
    else if c = '-' then
      if cs = [] ∨ ¬ cs.all Char.isDigit then none
      else some (-(digitsToNat cs : Int))
    else
      if (c :: cs).all Char.isDigit then some (digitsToNat (c :: cs) : Nat)
      else none

/-- Outcome of one external scheduler command (`check_output` call):
`ok` is a zero exit with captured output, `err` is a
`CalledProcessError` with its `returncode` and `output`. -/
inductive CmdResult where
  | ok (output : String)
  | err (returncode : Int) (output : String)
deriving DecidableEq, Repr

/-- The return-dict shapes `SLURMScheduler.schedule` can actually produce
(lines 125-128 and 150-154).  The two `-7` "Unexpeted output from sbatch"
dicts in the source (lines 135-138 and 145-148) are unreachable: both sit
behind the `self.logger.error` calls of lines 134/144, which raise an
uncaught `AttributeError` first. -/
inductive ScheduleResult where
  | callFailed (returncode : Int) (msg : String)
  | scheduled (status_code : Int) (status_msg : String) (job_num : Int)
deriving DecidableEq, Repr

/-- `SLURMScheduler.schedule` (lines 111-154).  `cwd` is the working
directory on entry (`ret_dir = os.getcwd()`); the second component of the
result is the working directory when the call ends.  The code does
`os.chdir(proj_loc)` before `sbatch` and `os.chdir(ret_dir)` before every
later control point (line 124 on the error path, line 129 before any
parsing), so every branch below ends at `cwd`.  The `none` results mark
uncaught exceptions: `self.logger.error` at line 134 (failed prefix
check) and at line 144 (caught `ValueError` from `int()`) raises
`AttributeError` before the `-7` dict is returned, and
`output_fields[3:][0]` would raise an `IndexError` that the Python 2
clause `except ValueError, IndexError` does not catch (it binds the
`ValueError` to the name `IndexError`). -/
def schedule (cwd proj_loc : String) (cmd : CmdResult) :
    Option ScheduleResult × String :=
  match cmd with
  | .err rc output =>
    (some (.callFailed rc ("Job scheduling call failed: " ++ output)), cwd)
  | .ok batch_output =>
    if "Submitted batch job" ≠
        pyJoin " " ((pySplitWS (pyStrip batch_output)).dropLast) then
      (none, cwd)
    else
      match ((pySplitWS (pyStrip batch_output)).drop 3).head? with
      | none => (none, cwd)
      | some field =>
        match pyInt? field with
        | none => (none, cwd)
        | some n =>
          (some (.scheduled 0 ("Job " ++ toString n ++ " scheduled") n), cwd)

/-- `SLURMScheduler.check_status` (lines 156-185), as a function of the
`scontrol show job` outcome.  `none` marks an uncaught exception: on a
non-zero exit, `self.logger.error` at line 168 raises `AttributeError`
before the `(-1, msg)` return; on output with no `JobState=` token,
`job_info.split('JobState=')[1].split()[0]` (line 171) raises
`IndexError`; on a `FAILED` or unrecognized token, `self.logger.error`
at line 180/184 raises `AttributeError` before the error tuple is
returned.  Only the `RUNNING`/`COMPLETED`/`PENDING` branches return. -/
def check_status (cmd : CmdResult) : Option (Int × String) :=
  match cmd with
  | .err _ _ => none
  | .ok job_info =>
    match extractJobState job_info with
    | none => none
    | some job_state =>
      if job_state = "RUNNING" then some (0, "Running")
      else if job_state = "COMPLETED" then some (0, "Done")
      else if job_state = "PENDING" then some (0, "Queued")
      else if job_state = "FAILED" then none
      else none

/-- `SLURMScheduler.cancel_job` (lines 187-200), as a function of the
`scancel` outcome.  On a non-zero exit, `self.logger.error` at line 198
raises `AttributeError` before the `(-1, msg)` return (`none`). -/
def cancel_job (cmd : CmdResult) : Option (Int × String) :=
  match cmd with
  | .err _ _ => none
  | .ok result => some (0, result)

/-- Truthiness of the `email` argument: Python's `if email:` is false for
`None` and for the empty string. -/
def emailTruthy : Option String → Bool
  | none => false
  | some e => e ≠ ""

/-- The lines of the SLURM batch script `get_batch_script` can actually
emit, one entry per `contents +=` statement of lines 94-108.  The
`--mail-user` line of line 105 never appears: it sits behind the
`if email:` test, whose body first runs `self.logger.debug` (line 103)
and raises an uncaught `AttributeError`. -/
def batch_script_lines (run_name : String) (numtasks : Nat) :
    List String :=
  ["#!/bin/bash",
   "",
   "###################################",
   "# Slurm Submission options",
   "#",
   "#SBATCH --job-name=" ++ run_name,
   "#SBATCH -o output.txt",
   "#SBATCH -n " ++ toString numtasks,
   "###################################",
   "",
   "python bin/onramp_run.py"]

/-- `SLURMScheduler.get_batch_script` (lines 84-109): with a truthy
email the function crashes at line 103 (`self.logger.debug` on the
never-assigned logger attribute, modelled `none`); otherwise it returns
the concatenation of the lines above, each terminated by a newline. -/
def get_batch_script (run_name : String) (numtasks : Nat)
    (email : Option String) : Option String :=
  if emailTruthy email then none
  else some (String.join ((batch_script_lines run_name numtasks).map
    (fun l => l ++ "\n")))

/-- `SLURMScheduler.is_scheduler_for` (lines 74-82). -/
def is_scheduler_for (type : String) : Bool :=
  type = "SLURM"

/-- The one driver a successful `Scheduler` call can construct
(`SLURMScheduler(type)` inherits the `pass` initializer). -/
inductive SchedulerInstance where
  | slurm
deriving DecidableEq, Repr

/-- One registered `_BatchScheduler` subclass: its `is_scheduler_for`
predicate and its constructor. -/
structure DriverClass where
  matches_type : String → Bool
  construct : String → SchedulerInstance

/-- The `SLURMScheduler` class as seen by the factory loop. -/
def slurmClass : DriverClass :=
  ⟨is_scheduler_for, fun _ => SchedulerInstance.slurm⟩

/-- `_BatchScheduler.__subclasses__()` for this module: only
`SLURMScheduler` is defined. -/
def registeredSchedulers : List DriverClass := [slurmClass]

/-- The `Scheduler` factory (lines 202-211): first subclass whose
`is_scheduler_for(type)` is true is instantiated; `none` marks the
`raise ValueError` when no subclass matches. -/
def Scheduler (type : String) : Option SchedulerInstance :=
  match registeredSchedulers.find? (fun c => c.matches_type type) with
  | some c => some (c.construct type)
  | none => none

/-! ## Basic string and list lemmas -/

theorem data_append (a b : String) : (a ++ b).data = a.data ++ b.data := rfl

theorem str_ext {a b : String} (h : a.data = b.data) : a = b := by
  cases a; cases b; exact congrArg String.mk h

theorem sappend_assoc (a b c : String) : a ++ b ++ c = a ++ (b ++ c) :=
  str_ext (by simp [data_append])

theorem sappend_nil (a : String) : a ++ "" = a :=
  str_ext (by simp [data_append])

theorem snil_append (a : String) : "" ++ a = a :=
  str_ext (by simp [data_append])

/-- Substring test on char lists (used to state "the message carries the
output"): `p` occurs contiguously in `s`. -/
def listContains : List Char → List Char → Bool
  | [], p => p.isEmpty
  | c :: t, p => p.isPrefixOf (c :: t) || listContains t p

/-- Substring test on strings. -/
def strContains (s pat : String) : Bool :=
  listContains s.data pat.data

theorem isPrefixOf_iff_exists (p s : List Char) :
    p.isPrefixOf s = true ↔ ∃ r, s = p ++ r := by
  induction p generalizing s with
  | nil =>
    simp [List.isPrefixOf]
  | cons a p ih =>
    cases s with
    | nil =>
      constructor
      · intro h; simp [List.isPrefixOf] at h
      · rintro ⟨r, hr⟩; simp at hr
    | cons b t =>
      constructor
      · intro h
        have h' : (a == b) = true ∧ p.isPrefixOf t = true := by
          simpa [List.isPrefixOf, Bool.and_eq_true] using h
        obtain ⟨r, hr⟩ := (ih t).mp h'.2
        exact ⟨r, by simp [hr, eq_of_beq h'.1]⟩
      · rintro ⟨r, hr⟩
        rw [List.cons_append] at hr
        injection hr with hb ht
        subst hb
        have hp : p.isPrefixOf t = true := (ih t).mpr ⟨r, ht⟩
        simp [List.isPrefixOf, hp]

theorem listContains_iff (s p : List Char) :
    listContains s p = true ↔ ∃ a b, s = a ++ p ++ b := by
  induction s with
  | nil =>
    simp only [listContains, List.isEmpty_iff]
    constructor
    · rintro rfl; exact ⟨[], [], rfl⟩
    · rintro ⟨a, b, hab⟩
      obtain ⟨h1, -⟩ := List.append_eq_nil.mp hab.symm
      exact (List.append_eq_nil.mp h1).2
  | cons c t ih =>
    simp only [listContains, Bool.or_eq_true, isPrefixOf_iff_exists, ih]
    constructor
    · rintro (⟨r, hr⟩ | ⟨a, b, hab⟩)
      · exact ⟨[], r, by simpa using hr⟩
      · exact ⟨c :: a, b, by simp [hab]⟩
    · rintro ⟨a, b, hab⟩
      cases a with
      | nil => exact Or.inl ⟨b, by simpa using hab⟩
      | cons a0 a' =>
        rw [List.cons_append, List.cons_append] at hab
        injection hab with h1 h2
        exact Or.inr ⟨a', b, h2⟩

theorem strContains_of_eq_append (s a p b : String) (h : s = a ++ p ++ b) :
    strContains s p = true := by
  subst h
  unfold strContains
  exact (listContains_iff ..).mpr ⟨a.data, b.data, by simp [data_append]⟩

/-! ## Whitespace and digit lemmas -/

theorem dropWhile_eq_self_of {p : Char → Bool} (l : List Char)
    (h : ∀ c ∈ l, p c = false) : l.dropWhile p = l := by
  cases l with
  | nil => rfl
  | cons a t => simp [List.dropWhile_cons, h a (by simp)]

theorem trimWS_eq_self (l : List Char) (h : ∀ c ∈ l, pyIsSpace c = false) :
    trimWS l = l := by
  unfold trimWS
  rw [dropWhile_eq_self_of l h]
  rw [dropWhile_eq_self_of l.reverse
    (fun c hc => h c (List.mem_reverse.mp hc))]
  exact List.reverse_reverse l

theorem digit_not_space (c : Char) (h : c.isDigit = true) :
    pyIsSpace c = false := by
  simp [Char.isDigit] at h
  obtain ⟨h1, h2⟩ := h
  simp only [pyIsSpace, Bool.or_eq_false_iff, decide_eq_false_iff_not]
  and_intros <;> rintro rfl <;> revert h1 h2 <;> decide

theorem digit_ne_signs (c : Char) (h : c.isDigit = true) :
    c ≠ '+' ∧ c ≠ '-' := by
  simp [Char.isDigit] at h
  constructor <;> rintro rfl <;> revert h <;> decide

/-! ## Lemmas about `wsSplit` (Python `str.split()`) -/

theorem wsSplitAux_word (w : List Char)
    (hw : ∀ c ∈ w, pyIsSpace c = false) :
    ∀ cur l, wsSplitAux cur (w ++ l) = wsSplitAux (w.reverse ++ cur) l := by
  induction w with
  | nil => intro cur l; simp
  | cons c w ih =>
    intro cur l
    have hc : pyIsSpace c = false := hw c (by simp)
    rw [List.cons_append, show wsSplitAux cur (c :: (w ++ l)) =
      wsSplitAux (c :: cur) (w ++ l) by simp [wsSplitAux, hc]]
    rw [ih (fun x hx => hw x (by simp [hx])) (c :: cur) l]
    simp [List.reverse_cons, List.append_assoc]

theorem wsSplitAux_space (cur : List Char) (c : Char) (l : List Char)
    (h : pyIsSpace c = true) :
    wsSplitAux cur (c :: l) =
      if cur = [] then wsSplitAux [] l
      else cur.reverse :: wsSplitAux [] l := by
  simp [wsSplitAux, h]

theorem wsSplit_word_sep (w : List Char) (sep : Char) (l : List Char)
    (hw : w ≠ []) (hnw : ∀ c ∈ w, pyIsSpace c = false)
    (hs : pyIsSpace sep = true) :
    wsSplit (w ++ sep :: l) = w :: wsSplit l := by
  unfold wsSplit
  rw [wsSplitAux_word w hnw [] (sep :: l), List.append_nil,
    wsSplitAux_space _ sep l hs]
  simp [hw]

theorem wsSplit_word (w : List Char) (hw : w ≠ [])
    (hnw : ∀ c ∈ w, pyIsSpace c = false) : wsSplit w = [w] := by
  unfold wsSplit
  calc wsSplitAux [] w = wsSplitAux [] (w ++ []) := by simp
    _ = wsSplitAux (w.reverse ++ []) [] := wsSplitAux_word w hnw [] []
    _ = [w] := by simp [wsSplitAux, hw]

theorem wsSplit_good : ∀ l cur, (∀ c ∈ cur, pyIsSpace c = false) →
    ∀ w ∈ wsSplitAux cur l, w ≠ [] ∧ ∀ c ∈ w, pyIsSpace c = false := by
  intro l
  induction l with
  | nil =>
    intro cur hcur w hw
    by_cases h : cur = []
    · simp [wsSplitAux, h] at hw
    · simp only [wsSplitAux, if_neg h, List.mem_singleton] at hw
      subst hw
      refine ⟨by simpa using h, fun c hc => hcur c (List.mem_reverse.mp hc)⟩
  | cons c cs ih =>
    intro cur hcur w hw
    by_cases hsp : pyIsSpace c = true
    · rw [wsSplitAux_space cur c cs hsp] at hw
      by_cases h : cur = []
      · rw [if_pos h] at hw
        exact ih [] (by simp) w hw
      · rw [if_neg h] at hw
        rcases List.mem_cons.mp hw with h1 | h2
        · subst h1
          refine ⟨by simpa using h,
            fun x hx => hcur x (List.mem_reverse.mp hx)⟩
        · exact ih [] (by simp) w h2
    · have hsp' : pyIsSpace c = false := by simpa using hsp
      rw [show wsSplitAux cur (c :: cs) = wsSplitAux (c :: cur) cs by
        simp [wsSplitAux, hsp']] at hw
      refine ih (c :: cur) ?_ w hw
      intro x hx
      rcases List.mem_cons.mp hx with h1 | h2
      · subst h1; exact hsp'
      · exact hcur x h2

theorem wsSplit_mem_good (l : List Char) :
    ∀ w ∈ wsSplit l, w ≠ [] ∧ ∀ c ∈ w, pyIsSpace c = false :=
  wsSplit_good l [] (by simp)

/-! ## Joining fields back: `' '.join` is injective on split fields -/

/-- `' '.join` on char-list words. -/
def joinChars : List (List Char) → List Char
  | [] => []
  | [w] => w
  | w :: ws => w ++ ' ' :: joinChars ws

theorem pyJoin_map_mk (ws : List (List Char)) :
    pyJoin " " (ws.map (fun w => (⟨w⟩ : String))) = ⟨joinChars ws⟩ := by
  induction ws with
  | nil => rfl
  | cons w ws ih =>
    cases ws with
    | nil => rfl
    | cons v ws' =>
      simp only [List.map_cons] at ih ⊢
      show (⟨w⟩ : String) ++ " " ++ pyJoin " " _ = _
      rw [ih]
      apply str_ext
      have hsp : " ".data = [' '] := rfl
      simp [data_append, joinChars, hsp]

theorem word_sep_inj : ∀ (w₁ w₂ t₁ t₂ : List Char),
    (∀ c ∈ w₁, pyIsSpace c = false) → (∀ c ∈ w₂, pyIsSpace c = false) →
    w₁ ++ ' ' :: t₁ = w₂ ++ ' ' :: t₂ → w₁ = w₂ ∧ t₁ = t₂ := by
  intro w₁
  induction w₁ with
  | nil =>
    intro w₂ t₁ t₂ h₁ h₂ heq
    cases w₂ with
    | nil => simpa using heq
    | cons b w₂ =>
      rw [List.nil_append, List.cons_append] at heq
      injection heq with hb ht
      have hsp := h₂ b (by simp)
      rw [← hb] at hsp
      simp [pyIsSpace] at hsp
  | cons a w₁ ih =>
    intro w₂ t₁ t₂ h₁ h₂ heq
    cases w₂ with
    | nil =>
      rw [List.nil_append, List.cons_append] at heq
      injection heq with hb ht
      have hsp := h₁ a (by simp)
      rw [hb] at hsp
      simp [pyIsSpace] at hsp
    | cons b w₂ =>
      rw [List.cons_append, List.cons_append] at heq
      injection heq with hb ht
      obtain ⟨e1, e2⟩ := ih w₂ t₁ t₂ (fun c hc => h₁ c (by simp [hc]))
        (fun c hc => h₂ c (by simp [hc])) ht
      exact ⟨by rw [hb, e1], e2⟩

theorem joinChars_inj : ∀ (ws₁ ws₂ : List (List Char)),
    (∀ w ∈ ws₁, w ≠ [] ∧ ∀ c ∈ w, pyIsSpace c = false) →
    (∀ w ∈ ws₂, w ≠ [] ∧ ∀ c ∈ w, pyIsSpace c = false) →
    joinChars ws₁ = joinChars ws₂ → ws₁ = ws₂ := by
  intro ws₁
  induction ws₁ with
  | nil =>
    intro ws₂ h₁ h₂ heq
    cases ws₂ with
    | nil => rfl
    | cons w ws₂ =>
      cases ws₂ with
      | nil => exact absurd heq.symm (h₂ w (by simp)).1
      | cons v ws₂' =>
        have : w ++ ' ' :: joinChars (v :: ws₂') = [] := heq.symm
        simp at this
  | cons w₁ ws₁ ih =>
    intro ws₂ h₁ h₂ heq
    cases ws₂ with
    | nil =>
      cases ws₁ with
      | nil => exact absurd heq (h₁ w₁ (by simp)).1
      | cons v ws₁' =>
        have : w₁ ++ ' ' :: joinChars (v :: ws₁') = [] := heq
        simp at this
    | cons w₂ ws₂' =>
      cases ws₁ with
      | nil =>
        cases ws₂' with
        | nil =>
          have : w₁ = w₂ := heq
          rw [this]
        | cons v ws₂'' =>
          have hmem : ' ' ∈ w₁ := by
            rw [show w₁ = w₂ ++ ' ' :: joinChars (v :: ws₂'') from heq]
            simp
          have hsp := (h₁ w₁ (by simp)).2 ' ' hmem
          simp [pyIsSpace] at hsp
      | cons v₁ ws₁' =>
        cases ws₂' with
        | nil =>
          have hmem : ' ' ∈ w₂ := by
            rw [show w₂ = w₁ ++ ' ' :: joinChars (v₁ :: ws₁') from heq.symm]
            simp
          have hsp := (h₂ w₂ (by simp)).2 ' ' hmem
          simp [pyIsSpace] at hsp
        | cons v₂ ws₂'' =>
          have heq' : w₁ ++ ' ' :: joinChars (v₁ :: ws₁') =
              w₂ ++ ' ' :: joinChars (v₂ :: ws₂'') := heq
          obtain ⟨e1, e2⟩ := word_sep_inj w₁ w₂ _ _
            (h₁ w₁ (by simp)).2 (h₂ w₂ (by simp)).2 heq'
          have e3 := ih (v₂ :: ws₂'') (fun w hw => h₁ w (by simp [hw]))
            (fun w hw => h₂ w (by simp [hw])) e2
          rw [e1, e3]

theorem mem_of_mem_dropLast {α : Type} {l : List α} {a : α}
    (h : a ∈ l.dropLast) : a ∈ l :=
  List.Sublist.mem h (List.dropLast_sublist _)

/-- If the joined all-but-last fields of the split output read
`Submitted batch job`, the split has exactly the three expected words
followed by one trailing field. -/
theorem four_fields (out : String)
    (h : "Submitted batch job" =
      pyJoin " " ((pySplitWS (pyStrip out)).dropLast)) :
    ∃ f : List Char, f ≠ [] ∧ (∀ c ∈ f, pyIsSpace c = false) ∧
      pySplitWS (pyStrip out) =
        ["Submitted", "batch", "job", (⟨f⟩ : String)] := by
  have hmap : pySplitWS (pyStrip out) =
      (wsSplit (pyStrip out).data).map (fun w => (⟨w⟩ : String)) := rfl
  set ws := wsSplit (pyStrip out).data with hws
  rw [hmap, ← List.map_dropLast, pyJoin_map_mk] at h
  have hdata : joinChars ws.dropLast = "Submitted batch job".data :=
    (congrArg String.data h).symm
  have hgood : ∀ w ∈ ws.dropLast, w ≠ [] ∧ ∀ c ∈ w, pyIsSpace c = false :=
    fun w hw => wsSplit_mem_good _ w (mem_of_mem_dropLast hw)
  have htarget : joinChars ["Submitted".data, "batch".data, "job".data] =
      "Submitted batch job".data := by decide
  have hthree : ws.dropLast = ["Submitted".data, "batch".data, "job".data] :=
    joinChars_inj _ _ hgood (by decide) (hdata.trans htarget.symm)
  have hne : ws ≠ [] := by
    intro h0
    rw [h0] at hthree
    simp at hthree
  have hsplit : ws.dropLast ++ [ws.getLast hne] = ws :=
    List.dropLast_append_getLast hne
  obtain ⟨f, hf⟩ :
      ∃ f, ws = ["Submitted".data, "batch".data, "job".data] ++ [f] :=
    ⟨ws.getLast hne, by rw [← hthree]; exact hsplit.symm⟩
  have hfmem : f ∈ wsSplit (pyStrip out).data := by
    rw [← hws, hf]; simp
  have hguard := wsSplit_mem_good (pyStrip out).data f hfmem
  refine ⟨f, hguard.1, hguard.2, ?_⟩
  rw [hmap, hf]
  rfl

/-! ## `String.join` lemmas (for the batch script) -/

theorem foldl_sappend (l : List String) :
    ∀ init : String, l.foldl (· ++ ·) init = init ++ l.foldl (· ++ ·) "" := by
  induction l with
  | nil => intro init; exact (sappend_nil init).symm
  | cons x l ih =>
    intro init
    simp only [List.foldl]
    rw [ih (init ++ x), ih ("" ++ x), snil_append, sappend_assoc]

theorem sjoin_cons (x : String) (l : List String) :
    String.join (x :: l) = x ++ String.join l := by
  simp only [String.join, List.foldl]
  rw [foldl_sappend, snil_append]

theorem sjoin_append (a b : List String) :
    String.join (a ++ b) = String.join a ++ String.join b := by
  induction a with
  | nil =>
    show String.join b = String.join [] ++ String.join b
    rw [show String.join ([] : List String) = "" from rfl, snil_append]
  | cons x a ih =>
    rw [List.cons_append, sjoin_cons, sjoin_cons, ih, sappend_assoc]

theorem strContains_join_of_mem (L : List String) (l : String) (h : l ∈ L) :
    strContains (String.join (L.map (fun x => x ++ "\n"))) (l ++ "\n") =
      true := by
  obtain ⟨s, t, rfl⟩ := List.append_of_mem h
  rw [List.map_append, List.map_cons, sjoin_append, sjoin_cons]
  exact strContains_of_eq_append _
    (String.join (s.map (fun x => x ++ "\n"))) (l ++ "\n")
    (String.join (t.map (fun x => x ++ "\n"))) (sappend_assoc ..).symm

/-! ## Claims -/

/-- Claim C1: when the status-query command exits successfully,
`check_status` maps an output whose `JobState` token is `RUNNING` to
`Running`, `PENDING` to `Queued`, and `COMPLETED` to `Done`, each with
success code `0`. -/
theorem c1_check_status_known_tokens (out : String) :
    (extractJobState out = some "RUNNING" →
      check_status (CmdResult.ok out) = some (0, "Running")) ∧
    (extractJobState out = some "PENDING" →
      check_status (CmdResult.ok out) = some (0, "Queued")) ∧
    (extractJobState out = some "COMPLETED" →
      check_status (CmdResult.ok out) = some (0, "Done")) := by
  refine ⟨fun h => ?_, fun h => ?_, fun h => ?_⟩ <;>
    simp [check_status, h]

/-- Witness for C1 at three concrete `scontrol` outputs. -/
theorem c1_witness :
    check_status (CmdResult.ok "JobId=1 JobState=RUNNING Reason=None") =
      some (0, "Running") ∧
    check_status (CmdResult.ok "JobState=PENDING x") = some (0, "Queued") ∧
    check_status (CmdResult.ok "JobState=COMPLETED") = some (0, "Done") :=
  ⟨(c1_check_status_known_tokens "JobId=1 JobState=RUNNING Reason=None").1
      (by decide),
   (c1_check_status_known_tokens "JobState=PENDING x").2.1 (by decide),
   (c1_check_status_known_tokens "JobState=COMPLETED").2.2 (by decide)⟩

/-- Claim C2 (code bug): when the extracted `JobState` token is `FAILED`,
or is none of the four known tokens, `check_status` does not return the
error result the claim requires: the embedding yields `none`, i.e. the
`self.logger.error` call at line 180 / 184 raises an uncaught
`AttributeError` (the logger attribute is never assigned) before the
error tuple would be returned. -/
theorem c2_failure_tokens_crash (out tok : String)
    (h : extractJobState out = some tok)
    (hbad : tok = "FAILED" ∨
      (tok ≠ "RUNNING" ∧ tok ≠ "COMPLETED" ∧ tok ≠ "PENDING" ∧
        tok ≠ "FAILED")) :
    check_status (CmdResult.ok out) = none := by
  rcases hbad with rfl | ⟨h1, h2, h3, h4⟩
  · simp [check_status, h]
  · simp [check_status, h, h1, h2, h3, h4]

/-- Witness for C2 at a `FAILED` output and at an unrecognized token. -/
theorem c2_witness :
    check_status (CmdResult.ok "JobState=FAILED Reason=x") = none ∧
    check_status (CmdResult.ok "JobState=BOOM") = none :=
  ⟨c2_failure_tokens_crash "JobState=FAILED Reason=x" "FAILED"
      (by decide) (Or.inl rfl),
   c2_failure_tokens_crash "JobState=BOOM" "BOOM"
      (by decide) (Or.inr (by decide))⟩

/-- Claim C6 (code bug): on a zero-exit status-query output with no
`JobState=` field, `check_status` does not produce a normalized result:
the embedding yields `none`, i.e. line 171 of the source raises an
uncaught `IndexError` instead of returning an error envelope. -/
theorem c6_missing_jobstate_uncaught :
    check_status
      (CmdResult.ok "slurm_load_jobs error: Invalid job id specified") =
      none := by
  decide

/-- Claim C8: the `Scheduler` factory yields the SLURM driver exactly for
type identifier `SLURM` and fails (raises `ValueError`, modelled `none`)
at construction time for every other identifier. -/
theorem c8_scheduler_factory (type : String) :
    (Scheduler type = some SchedulerInstance.slurm ↔ type = "SLURM") ∧
    (Scheduler type = none ↔ type ≠ "SLURM") := by
  by_cases h : type = "SLURM" <;>
    simp [Scheduler, registeredSchedulers, slurmClass, is_scheduler_for,
      List.find?, h]

/-- Claim C9: `schedule` restores the entry working directory on every
return path (success, non-zero `sbatch` exit, unparseable output, and
even the uncaught-exception path). -/
theorem c9_schedule_restores_cwd (cwd proj_loc : String)
    (cmd : CmdResult) : (schedule cwd proj_loc cmd).2 = cwd := by
  cases cmd with
  | err rc out => rfl
  | ok out =>
    simp only [schedule]
    split
    · rfl
    · split
      · rfl
      · split <;> rfl

/-- Claim C5 counterexample: on a non-zero `scontrol` or `scancel` exit,
the driver produces no failure result at all — the embedding yields
`none`, because `self.logger.error` (line 168 / 198) raises an uncaught
`AttributeError` before the fixed-message return.  The claim as stated
(every operation turns a non-zero exit into a failure result carrying the
combined output) is therefore false. -/
theorem c5_counterexample :
    check_status (CmdResult.err 1 "boom") = none ∧
    cancel_job (CmdResult.err 1 "boom") = none := by
  decide

/-- Claim C5 amended: only `schedule` turns a non-zero exit into a
driver-level failure result, and its message does carry the command
output; `check_status` and `cancel_job` raise an uncaught
`AttributeError` through the never-assigned logger attribute before
their fixed-message returns, producing no result. -/
theorem c5_amended_nonzero_exit (rc : Int) (out cwd proj_loc : String) :
    (schedule cwd proj_loc (CmdResult.err rc out)).1 =
      some (ScheduleResult.callFailed rc
        ("Job scheduling call failed: " ++ out)) ∧
    strContains ("Job scheduling call failed: " ++ out) out = true ∧
    check_status (CmdResult.err rc out) = none ∧
    cancel_job (CmdResult.err rc out) = none := by
  refine ⟨rfl, ?_, rfl, rfl⟩
  exact strContains_of_eq_append _ "Job scheduling call failed: " out ""
    (sappend_nil _).symm

/-- Claim C10: whenever the prefix check of `schedule` passes (the joined
fields before the last read `Submitted batch job`), the split output has
exactly four fields, so the extraction `output_fields[3:][0]` is in
bounds and its `IndexError` case is unreachable; any `none` result of
`schedule` under a passing prefix check is the `int()` `ValueError` /
logger path, never that `IndexError`. -/
theorem c10_prefix_check_forces_four_fields (out cwd proj_loc : String)
    (h : "Submitted batch job" =
      pyJoin " " ((pySplitWS (pyStrip out)).dropLast)) :
    (pySplitWS (pyStrip out)).length = 4 ∧
    ∃ f, pySplitWS (pyStrip out) = ["Submitted", "batch", "job", f] ∧
      ((pySplitWS (pyStrip out)).drop 3).head? = some f ∧
      ((schedule cwd proj_loc (CmdResult.ok out)).1 = none →
        pyInt? f = none) := by
  obtain ⟨f, hf1, hf2, hfields⟩ := four_fields out h
  refine ⟨by rw [hfields]; rfl, (⟨f⟩ : String), hfields,
    by rw [hfields]; rfl, ?_⟩
  intro hnone
  rcases hpi : pyInt? (⟨f⟩ : String) with _ | n
  · rfl
  · exfalso
    have hval : (schedule cwd proj_loc (CmdResult.ok out)).1 =
        some (ScheduleResult.scheduled 0
          ("Job " ++ toString n ++ " scheduled") n) := by
      simp only [schedule]
      rw [if_neg (not_not_intro h), hfields]
      simp [hpi]
    rw [hval] at hnone
    exact Option.noConfusion hnone

/-- Witness for C10 at a concrete well-formed `sbatch` output. -/
theorem c10_witness :
    (pySplitWS (pyStrip "Submitted batch job 42")).length = 4 ∧
    ∃ f, pySplitWS (pyStrip "Submitted batch job 42") =
        ["Submitted", "batch", "job", f] ∧
      ((pySplitWS (pyStrip "Submitted batch job 42")).drop 3).head? =
        some f ∧
      ((schedule "/home" "/proj"
          (CmdResult.ok "Submitted batch job 42")).1 = none →
        pyInt? f = none) :=
  c10_prefix_check_forces_four_fields "Submitted batch job 42" "/home"
    "/proj" (by decide)

/-- Claim C4 (code bug): when the prefix check fails, or the trailing
field is not an integer, `schedule` does not return the `-7`
unexpected-output signal the claim requires: the embedding yields
`none`, i.e. `self.logger.error` at line 134 / 144 raises an uncaught
`AttributeError` (the logger attribute is never assigned) before the
`-7` dict would be returned. -/
theorem c4_unexpected_output_crash (cwd proj_loc out : String)
    (h : "Submitted batch job" ≠
        pyJoin " " ((pySplitWS (pyStrip out)).dropLast) ∨
      ∀ f, (pySplitWS (pyStrip out)).getLast? = some f →
        pyInt? f = none) :
    (schedule cwd proj_loc (CmdResult.ok out)).1 = none := by
  by_cases hc : "Submitted batch job" =
      pyJoin " " ((pySplitWS (pyStrip out)).dropLast)
  · rcases h with h | h
    · exact absurd hc h
    · obtain ⟨f, hf1, hf2, hfields⟩ := four_fields out hc
      have hlast : (pySplitWS (pyStrip out)).getLast? =
          some (⟨f⟩ : String) := by
        rw [hfields]; rfl
      have hint : pyInt? (⟨f⟩ : String) = none := h _ hlast
      simp only [schedule]
      rw [if_neg (not_not_intro hc), hfields]
      simp [hint]
  · simp only [schedule]
    rw [if_pos hc]

/-- Witness for C4: one output without the prefix, one with the prefix
but a non-numeric trailing field. -/
theorem c4_witness :
    (schedule "/home" "/proj"
      (CmdResult.ok "sbatch: error: Batch job submission failed")).1 =
      none ∧
    (schedule "/home" "/proj" (CmdResult.ok "Submitted batch job xx")).1 =
      none := by
  constructor
  · exact c4_unexpected_output_crash "/home" "/proj"
      "sbatch: error: Batch job submission failed" (Or.inl (by decide))
  · refine c4_unexpected_output_crash "/home" "/proj"
      "Submitted batch job xx" (Or.inr ?_)
    intro f hf
    have h0 : (pySplitWS
        (pyStrip "Submitted batch job xx")).getLast? = some "xx" := by
      decide
    have : f = "xx" := (Option.some.inj (h0.symm.trans hf)).symm
    rw [this]
    decide

/-- Claim C3: for an `sbatch` output of the exact form
`Submitted batch job <n>` with a trailing decimal job number, `schedule`
returns the success envelope with `status_code` 0 and `job_num` equal to
that number. -/
theorem c3_schedule_success (cwd proj_loc ds : String) (h1 : ds ≠ "")
    (h2 : ∀ c ∈ ds.data, c.isDigit = true) :
    (schedule cwd proj_loc
      (CmdResult.ok ("Submitted batch job " ++ ds))).1 =
      some (ScheduleResult.scheduled 0
        ("Job " ++ toString (digitsToNat ds.data : Int) ++ " scheduled")
        (digitsToNat ds.data : Int)) := by
  have hnd : ds.data ≠ [] := fun hd => h1 (str_ext (by rw [hd]))
  have hnosp : ∀ c ∈ ds.data, pyIsSpace c = false :=
    fun c hc => digit_not_space c (h2 c hc)
  -- `strip` leaves the output unchanged: it starts with `S` and ends
  -- with a digit.
  obtain ⟨d, t, hrev⟩ : ∃ d t, ds.data.reverse = d :: t := by
    cases hr : ds.data.reverse with
    | nil => exact absurd (List.reverse_eq_nil_iff.mp hr) hnd
    | cons d t => exact ⟨d, t, rfl⟩
  have hd_nosp : pyIsSpace d = false := by
    refine hnosp d (List.mem_reverse.mp ?_)
    rw [hrev]; simp
  have e1 : ("Submitted batch job ".data ++ ds.data).dropWhile pyIsSpace =
      "Submitted batch job ".data ++ ds.data := by
    rw [show "Submitted batch job ".data ++ ds.data =
      'S' :: ("ubmitted batch job ".data ++ ds.data) from rfl]
    rw [List.dropWhile_cons, if_neg (by decide)]
  have e2 : (("Submitted batch job ".data ++ ds.data).reverse).dropWhile
      pyIsSpace = ("Submitted batch job ".data ++ ds.data).reverse := by
    rw [List.reverse_append, hrev, List.cons_append, List.dropWhile_cons,
      if_neg (by simp [hd_nosp])]
  have htrim : pyStrip ("Submitted batch job " ++ ds) =
      "Submitted batch job " ++ ds := by
    apply str_ext
    show trimWS ("Submitted batch job " ++ ds).data = _
    rw [show ("Submitted batch job " ++ ds).data =
      "Submitted batch job ".data ++ ds.data from rfl]
    unfold trimWS
    rw [e1, e2, List.reverse_reverse]
  have hsplit : pySplitWS (pyStrip ("Submitted batch job " ++ ds)) =
      ["Submitted", "batch", "job", ds] := by
    rw [htrim]
    show (wsSplit ("Submitted batch job " ++ ds).data).map _ = _
    rw [show ("Submitted batch job " ++ ds).data =
      "Submitted".data ++ ' ' :: ("batch".data ++ ' ' ::
        ("job".data ++ ' ' :: ds.data)) from rfl]
    rw [wsSplit_word_sep "Submitted".data ' ' _ (by decide) (by decide)
      (by decide)]
    rw [wsSplit_word_sep "batch".data ' ' _ (by decide) (by decide)
      (by decide)]
    rw [wsSplit_word_sep "job".data ' ' _ (by decide) (by decide)
      (by decide)]
    rw [wsSplit_word ds.data hnd hnosp]
    rfl
  have hpy : pyInt? ds = some (digitsToNat ds.data : Int) := by
    have hstr : pyStrip ds = ds := str_ext (trimWS_eq_self ds.data hnosp)
    cases hds : ds.data with
    | nil => exact absurd hds hnd
    | cons c cs =>
      have hcd : c.isDigit = true := h2 c (by rw [hds]; simp)
      have hsigns := digit_ne_signs c hcd
      have hall : (c :: cs).all Char.isDigit = true :=
        List.all_eq_true.mpr (fun x hx => h2 x (by rw [hds]; exact hx))
      simp only [pyInt?, hstr, hds]
      rw [if_neg hsigns.1, if_neg hsigns.2, if_pos hall]
  simp only [schedule]
  rw [hsplit]
  have heq : "Submitted batch job" =
      pyJoin " " (["Submitted", "batch", "job", ds].dropLast) := rfl
  rw [if_neg (not_not_intro heq)]
  simp [hpy]

/-- Witness for C3 at the concrete output `Submitted batch job 123`. -/
theorem c3_witness :
    (schedule "/home" "/proj"
      (CmdResult.ok ("Submitted batch job " ++ "123"))).1 =
      some (ScheduleResult.scheduled 0
        ("Job " ++ toString (digitsToNat "123".data : Int) ++ " scheduled")
        (digitsToNat "123".data : Int)) :=
  c3_schedule_success "/home" "/proj" "123" (by decide) (by decide)

/-- The exact behavior of `get_batch_script` on two concrete inputs,
pinning the embedding against the source line by line: without an email
the full script text, with an email the crash. -/
theorem get_batch_script_concrete :
    get_batch_script "run" 4 none =
      some "#!/bin/bash\n\n###################################\n# Slurm Submission options\n#\n#SBATCH --job-name=run\n#SBATCH -o output.txt\n#SBATCH -n 4\n###################################\n\npython bin/onramp_run.py\n" ∧
    get_batch_script "run" 2 (some "u@x.org") = none := by
  constructor <;> rfl

/-- Claim C7 (code bug): for every truthy email, `get_batch_script`
crashes (`self.logger.debug` at line 103 on the never-assigned logger
attribute raises an uncaught `AttributeError`, modelled `none`) and so
never returns a script with the `--mail-user` directive the claim
requires; without an email it does return a script that names the job
after the run name, requests the given task count and invokes the module
entry point. -/
theorem c7_email_crash_and_no_email_script (rn : String) (nt : Nat)
    (e : String) (he : e ≠ "") :
    get_batch_script rn nt (some e) = none ∧
    ∃ s, get_batch_script rn nt none = some s ∧
      strContains s ("#SBATCH --job-name=" ++ rn ++ "\n") = true ∧
      strContains s ("#SBATCH -n " ++ toString nt ++ "\n") = true ∧
      strContains s "python bin/onramp_run.py\n" = true := by
  constructor
  · simp [get_batch_script, emailTruthy, he]
  · refine ⟨String.join ((batch_script_lines rn nt).map
      (fun l => l ++ "\n")), rfl, ?_, ?_, ?_⟩
    · exact strContains_join_of_mem _ ("#SBATCH --job-name=" ++ rn)
        (by simp [batch_script_lines])
    · exact strContains_join_of_mem _ ("#SBATCH -n " ++ toString nt)
        (by simp [batch_script_lines])
    · have h3 := strContains_join_of_mem (batch_script_lines rn nt)
        "python bin/onramp_run.py" (by simp [batch_script_lines])
      rw [show ("python bin/onramp_run.py" ++ "\n" : String) =
        "python bin/onramp_run.py\n" from rfl] at h3
      exact h3

/-- Witness for C7 at a concrete run name, task count and email. -/
theorem c7_witness :
    get_batch_script "myrun" 4 (some "user@example.com") = none ∧
    ∃ s, get_batch_script "myrun" 4 none = some s ∧
      strContains s ("#SBATCH --job-name=" ++ "myrun" ++ "\n") = true ∧
      strContains s ("#SBATCH -n " ++ toString 4 ++ "\n") = true ∧
      strContains s "python bin/onramp_run.py\n" = true :=
  c7_email_crash_and_no_email_script "myrun" 4 "user@example.com"
    (by decide)

end Onramp
